/-
Verification of the My_Films Telegram bot (`bot.py`) against its
natural-language specification.

The development shallowly embeds the data model and the operations of
`bot.py`:
  * machine state that Python keeps in globals or in `context.user_data`
    is passed explicitly;
  * the JSON store (`load_films` / `save_films`) is modelled as an
    association list from user-id strings to ordered film-record lists,
    together with an explicit JSON AST for the on-disk file;
  * network fetches (`httpx` calls) are parameters of the embedded
    functions: each handler takes the fetch outcome as an argument;
  * Python `int` is `Int` (arbitrary precision, like Python), `float`
    time is `ℚ`;
  * the conversation-state integers mirror the constants of `bot.py`.
-/
import Mathlib

set_option linter.unusedVariables false

/-! ## Conversation-state constants (`bot.py` lines 27-30) -/

namespace ConversationHandler

/-- `telegram.ext.ConversationHandler.END`. -/
def END : Int := -1

end ConversationHandler

/-- `ADD_TITLE, ADD_CHOICE = range(2)` -/
def ADD_TITLE : Int := 0

def ADD_CHOICE : Int := 1

/-- `RECOMMEND_MORE_FILM, RECOMMEND_MORE_GENRE = range(15, 17)` -/
def RECOMMEND_MORE_FILM : Int := 15

def RECOMMEND_MORE_GENRE : Int := 16

/-- `LIST_SHOW, LIST_DELETE = range(20, 22)` -/
def LIST_SHOW : Int := 20

def LIST_DELETE : Int := 21

/-! ## Data model -/

/-- A saved film record, the element shape of a user's list in the JSON
store: `{'id': film['id'], 'title': film['title'], 'genres': genre_names}`
(`bot.py` line 193). -/
structure Film where
  id : Int
  title : String
  genres : List String
deriving DecidableEq

/-- A candidate returned by the TMDB search / recommendation endpoints:
the fields of the result objects that `bot.py` reads (`film['id']`,
`film['title']`, `film.get('genre_ids', [])`). -/
structure Candidate where
  id : Int
  title : String
  genre_ids : List Int
deriving DecidableEq, Inhabited

/-- The in-memory store: the parsed contents of `DATA_FILE`, a JSON
object keyed by user-id string whose values are ordered film arrays.
Python dicts preserve insertion order and have unique keys; an
association list models this. -/
abbrev Store := List (String × List Film)

/-- `films.get(user_id, [])` — the user's saved list, `[]` when absent. -/
def load_user (store : Store) (user_id : String) : List Film :=
  ((store.find? (fun e => e.1 == user_id)).map (fun e => e.2)).getD []

/-- `films[user_id] = user_films` on a Python dict: replace the value at
an existing key in place, otherwise append the new key at the end. -/
def store_set (store : Store) (user_id : String) (fs : List Film) : Store :=
  if store.any (fun e => e.1 == user_id) then
    store.map (fun e => if e.1 == user_id then (user_id, fs) else e)
  else
    store ++ [(user_id, fs)]

/-- The genre taxonomy `{g['id']: g['name'] ...}` as an ordered
association list (a Python dict). -/
abbrev GenreMap := List (Int × String)

/-- `genres.get(gid, '')` / `genres_dict.get(gid, default)`. -/
def genre_get (m : GenreMap) (gid : Int) : Option String :=
  (m.find? (fun e => e.1 == gid)).map (fun e => e.2)

/-! ## Rate limiter (`bot.py` lines 39-59)

`RateLimiter.acquire` is an `async` method on shared mutable state:

    async def acquire(self):
        now = time.time()
        self.requests = [t for t in self.requests if now - t < self.time_window]
        if len(self.requests) >= self.max_requests:
            wait_time = self.time_window - (now - self.requests[0])
            if wait_time > 0:
                await asyncio.sleep(wait_time)
        self.requests.append(time.time())

The only suspension point is the `asyncio.sleep`.  The embedding splits
the method there: `acquireEntry` is the synchronous part up to and
including computing the sleep deadline (it commits the pruned list to
the shared state and returns the time at which the append will run —
`now` itself when no sleep happens), and `acquireAppend` is the code
after the suspension, which appends the wake-up time to whatever the
shared list holds by then.  A non-interleaved call is
`acquire = acquireEntry` then `acquireAppend`, assuming `asyncio.sleep`
wakes exactly at the deadline and `time.time()` returns the current
time. -/

structure RateLimiter where
  max_requests : Nat
  time_window : ℚ
  requests : List ℚ
deriving DecidableEq

/-- The pruning list-comprehension: keep timestamps with
`now - t < time_window`. -/
def RateLimiter.prune (rl : RateLimiter) (now : ℚ) : List ℚ :=
  rl.requests.filter (fun t => decide (now - t < rl.time_window))

/-- Synchronous part of `acquire`, up to the `asyncio.sleep` suspension
point: prune (writing the pruned list back to the shared state) and
compute the time at which the trailing `self.requests.append(...)` will
run (`now` when the capacity check or the `wait_time > 0` check keeps
the task from sleeping). -/
def RateLimiter.acquireEntry (rl : RateLimiter) (now : ℚ) : RateLimiter × ℚ :=
  let pruned := rl.prune now
  let wake :=
    if rl.max_requests ≤ pruned.length then
      let wait := rl.time_window - (now - pruned.headI)
      if 0 < wait then now + wait else now
    else now
  ({ rl with requests := pruned }, wake)

/-- The code after the suspension point: `self.requests.append(time.time())`,
executed at time `t` against the then-current shared state. -/
def RateLimiter.acquireAppend (rl : RateLimiter) (t : ℚ) : RateLimiter :=
  { rl with requests := rl.requests ++ [t] }

/-- One complete, non-interleaved `acquire` call starting at `now`. -/
def RateLimiter.acquire (rl : RateLimiter) (now : ℚ) : RateLimiter × ℚ :=
  let e := rl.acquireEntry now
  (e.1.acquireAppend e.2, e.2)

/-- Number of recorded timestamps inside the trailing window of length
`tw` ending at `a`, i.e. timestamps `s` with `a - tw < s ≤ a` — the same
window shape the pruning predicate `now - t < time_window` uses. -/
def windowCount (tw a : ℚ) (ts : List ℚ) : Nat :=
  (ts.filter (fun s => decide (a - tw < s ∧ s ≤ a))).length

/-- `tmdb_rate_limiter = RateLimiter(max_requests=8, time_window=1.0)`
(`bot.py` line 59, "8 запросов в секунду"). -/
def tmdb_rate_limiter : RateLimiter :=
  { max_requests := 8, time_window := 1, requests := [] }

/-- An interleaved execution of callers sharing `tmdb_rate_limiter`,
exactly as the single-threaded asyncio scheduler can produce it: eight
acquisitions complete under capacity (one at t=0.5, seven at t=0.96);
task B calls `acquire` at t=0.97, finds the window full and suspends
until t=1.5; task C calls `acquire` at t=0.98, also finds the (still
pruned) window full and suspends until t=1.5; both then resume and
append without re-checking. -/
def interleavedTrace : RateLimiter :=
  let a1 := tmdb_rate_limiter.acquire (1/2)
  let a2 := a1.1.acquire (24/25)
  let a3 := a2.1.acquire (24/25)
  let a4 := a3.1.acquire (24/25)
  let a5 := a4.1.acquire (24/25)
  let a6 := a5.1.acquire (24/25)
  let a7 := a6.1.acquire (24/25)
  let a8 := a7.1.acquire (24/25)
  let b := a8.1.acquireEntry (97/100)
  let c := b.1.acquireEntry (98/100)
  let afterB := c.1.acquireAppend b.2
  afterB.acquireAppend c.2

/-! ## Film store (`bot.py` lines 62-70)

    def load_films():
        if not os.path.exists(DATA_FILE):
            return {}
        with open(DATA_FILE, 'r', encoding='utf-8') as f:
            return json.load(f)

    def save_films(data):
        with open(DATA_FILE, 'w', encoding='utf-8') as f:
            json.dump(data, f, ensure_ascii=False, indent=2)

The file system is modelled as `Option Json`: `none` is an absent
`DATA_FILE`, `some j` a file whose parsed JSON value is `j`
(serialisation concerns such as whitespace do not survive `json.load`,
so the AST is the faithful observable).  `load_films` returns
`Option Store`: `none` marks a file whose JSON value does not have the
store shape (Python would hand the ill-shaped object onward and fail at
first use). -/

/-- A JSON value, as produced by `json.load`. -/
inductive Json where
  | null
  | str (s : String)
  | num (n : Int)
  | arr (items : List Json)
  | obj (fields : List (String × Json))

/-- Decode every element of a list, failing if any element fails — the
shape check a Python consumer performs element by element. -/
def decodeAll {α β : Type} (f : α → Option β) : List α → Option (List β)
  | [] => some []
  | x :: xs =>
    match f x, decodeAll f xs with
    | some y, some ys => some (y :: ys)
    | _, _ => none

/-- Decode a JSON string. -/
def decodeString : Json → Option String
  | .str s => some s
  | _ => none

/-- First field of the given name in a JSON object. -/
def Json.lookup (fields : List (String × Json)) (k : String) : Option Json :=
  (fields.find? (fun e => e.1 == k)).map (fun e => e.2)

/-- Decode one film record `{'id': ..., 'title': ..., 'genres': [...]}`. -/
def decodeFilm (j : Json) : Option Film :=
  match j with
  | .obj fields =>
    match Json.lookup fields "id", Json.lookup fields "title",
        Json.lookup fields "genres" with
    | some (.num i), some (.str t), some (.arr gs) =>
      (decodeAll decodeString gs).map (fun genres => ⟨i, t, genres⟩)
    | _, _, _ => none
  | _ => none

/-- Encode one film record as `json.dump` writes it. -/
def encodeFilm (f : Film) : Json :=
  .obj [("id", .num f.id), ("title", .str f.title),
        ("genres", .arr (f.genres.map Json.str))]

/-- Decode one user's film array. -/
def decodeFilms (j : Json) : Option (List Film) :=
  match j with
  | .arr items => decodeAll decodeFilm items
  | _ => none

/-- `load_films`: `{}` when the file is absent, else the parsed store. -/
def load_films (file : Option Json) : Option Store :=
  match file with
  | none => some []
  | some (.obj fields) =>
    decodeAll (fun e => (decodeFilms e.2).map (fun fs => (e.1, fs))) fields
  | some _ => none

/-- `save_films`: serialise the store back to a JSON object. -/
def save_films (s : Store) : Json :=
  .obj (s.map (fun e => (e.1, .arr (e.2.map encodeFilm))))

/-! ## Genre cache (`bot.py` lines 73-90)

    _genre_cache = None
    async def get_genres():
        global _genre_cache, http_client
        if _genre_cache:
            return _genre_cache
        ...
        try:
            await tmdb_rate_limiter.acquire()
            resp = await http_client.get(TMDB_GENRE_URL, ...)
            if resp.status_code == 200:
                genres = {g['id']: g['name'] for g in resp.json().get('genres', [])}
                _genre_cache = genres
                return genres
        except Exception as e:
            logger.error(...)
        return {}

The module-global `_genre_cache` is passed explicitly (`none` models the
initial `None`); the network call's outcome is a parameter. -/

/-- Outcome of the single genre-list HTTP request. -/
inductive GenreFetch where
  | ok (genres : GenreMap)
  | httpStatus (code : Nat)
  | exn
deriving DecidableEq

/-- Python truthiness of `_genre_cache`: `None` and `{}` are falsy. -/
def genre_cache_truthy (cache : Option GenreMap) : Bool :=
  match cache with
  | some m => !m.isEmpty
  | none => false

/-- `get_genres`, returning the mapping handed to the caller, the cache
after the call, and whether the fetch (rate-limiter acquire + HTTP GET)
ran at all.  An `ok` fetch stands for a 200 response; `httpStatus code`
(with `code ≠ 200` in any real run) falls through to `return {}` without
raising; `exn` is any exception, swallowed by the `except` clause. -/
def get_genres (cache : Option GenreMap) (fetch : GenreFetch) :
    GenreMap × Option GenreMap × Bool :=
  if genre_cache_truthy cache then (cache.getD [], cache, false)
  else
    match fetch with
    | .ok genres => (genres, some genres, true)
    | .httpStatus _ => ([], cache, true)
    | .exn => ([], cache, true)

/-! ## Adding a film (`bot.py` lines 120-204) -/

/-- The user-visible outcome of `add_save_film`. -/
inductive AddOutcome where
  | alreadyHave
  | added (title : String) (genre_names : List String)
  | saveError
deriving DecidableEq

/-- `add_save_film(update_or_query, context, film)` (`bot.py` lines
176-204): load the store, check the user's list for a record with the
candidate's id (duplicate: reply and end without writing), else build
the genre-name list via the taxonomy, append the new record, persist,
confirm.  The taxonomy returned by `get_genres` is passed in as
`genres`.  Returns the store after the call, the outcome, and the
conversation state returned to the framework (always `END`). -/
def add_save_film (store : Store) (user_id : String) (film : Candidate)
    (genres : GenreMap) : Store × AddOutcome × Int :=
  let user_films := load_user store user_id
  if user_films.any (fun f => f.id == film.id) then
    (store, .alreadyHave, ConversationHandler.END)
  else
    let genre_names := film.genre_ids.map (fun gid => (genre_get genres gid).getD "")
    let user_films := user_films ++ [⟨film.id, film.title, genre_names⟩]
    (store_set store user_id user_films, .added film.title genre_names,
      ConversationHandler.END)

/-- Outcome of the TMDB search performed by `add_title`. -/
inductive SearchOutcome where
  | ok (results : List Candidate)
  | requestError
  | otherError
deriving DecidableEq

/-- The user-visible outcome of `add_title`. -/
inductive AddTitleOutcome where
  | notFoundRetry
  | saved (r : AddOutcome)
  | pickList (shown : List Candidate)
  | searchErrorRetry
deriving DecidableEq

/-- Session contents relevant to the add conversation after `add_title`:
the value stored under `context.user_data['add_results']`, if any. -/
structure AddSession where
  add_results : Option (List Candidate)
deriving DecidableEq

/-- `add_title` (`bot.py` lines 120-156) after the search response is
known: no results re-prompts and stays in `ADD_TITLE`; exactly one
result tail-calls `add_save_film`; otherwise a pick-list of the first
five results is shown, the full result list is stored in the session,
and the state becomes `ADD_CHOICE`.  `httpx.RequestException` and any
other exception both re-prompt in `ADD_TITLE`.  Returns the store, the
outcome, the session afterwards, and the next conversation state. -/
def add_title (store : Store) (user_id : String) (genres : GenreMap)
    (session : AddSession) (search : SearchOutcome) :
    Store × AddTitleOutcome × AddSession × Int :=
  match search with
  | .requestError => (store, .searchErrorRetry, session, ADD_TITLE)
  | .otherError => (store, .searchErrorRetry, session, ADD_TITLE)
  | .ok results =>
    if results.isEmpty then
      (store, .notFoundRetry, session, ADD_TITLE)
    else if results.length = 1 then
      let r := add_save_film store user_id results.headI genres
      (r.1, .saved r.2.1, session, r.2.2)
    else
      (store, .pickList (results.take 5), ⟨some results⟩, ADD_CHOICE)

/-! ## Film-recommendation pagination (`bot.py` lines 274-310)

    items_per_page = 5
    bot_page = context.user_data['film_page']
    user_films = set(f['id'] for f in load_films().get(user_id, []))
    tmdb_page = (bot_page - 1) // 4 + 1
    tmdb_results_offset = ((bot_page - 1) % 4) * items_per_page
    ... GET .../recommendations?page=tmdb_page ...
    results = resp.json().get('results', [])
    new_films = [f for f in results if f['id'] not in user_films]
    start_idx = tmdb_results_offset
    end_idx = start_idx + items_per_page
    page_films = new_films[start_idx:end_idx]
    if not page_films:
        page_films = results[start_idx:end_idx]
    if not page_films:
        ... 'Больше рекомендаций нет' ...

`bot_page` is at least 1 in every reachable session (`film_page` is set
to `1` on pick and only ever incremented or replaced by `page - 1` for
`page > 1`), so it is a `Nat` here; Python `//` and `%` on nonnegative
ints agree with `Nat` `/` and `%`. -/

def items_per_page : Nat := 5

/-- The upstream TMDB page requested for UI page `bot_page`. -/
def tmdb_page (bot_page : Nat) : Nat := (bot_page - 1) / 4 + 1

/-- The offset of the UI page inside the upstream result block. -/
def tmdb_results_offset (bot_page : Nat) : Nat := ((bot_page - 1) % 4) * items_per_page

/-- Ceiling division, the spec's `ceil(p/4)` for `b = 4`. -/
def ceil_div (a b : Nat) : Nat := (a + b - 1) / b

/-- The five-item slice rendered for UI page `bot_page`, given the
upstream block `results` and the ids already in the user's saved list:
first the slice of the seen-filtered list, falling back to the slice of
the raw list when the filtered slice is empty.  `new_films[s:e]` on a
Python list is drop-`s`-take-`(e-s)`. -/
def page_films (results : List Candidate) (user_films : List Int)
    (bot_page : Nat) : List Candidate :=
  let new_films := results.filter (fun f => !user_films.contains f.id)
  let start_idx := tmdb_results_offset bot_page
  let sliced := (new_films.drop start_idx).take items_per_page
  if sliced.isEmpty then (results.drop start_idx).take items_per_page else sliced

/-! ## Deleting a film (`bot.py` lines 543-584)

The `delete_{i}` branch of `list_delete_film`:

    film_index = int(query.data.split("_")[1])
    films = context.user_data.get('list_films', [])
    if film_index >= len(films):
        ... "Ошибка: фильм не найден." ... return ConversationHandler.END
    film_to_delete = films[film_index]
    films.pop(film_index)
    all_films = load_films()
    all_films[user_id] = films
    save_films(all_films)
    ... confirmation ...
    if films: ... return LIST_SHOW
    else: ... return ConversationHandler.END
  except (ValueError, IndexError): ... return ConversationHandler.END

`film_index` comes from `int(...)`, an arbitrary Python int, so it is
an `Int` here.  `films[i]` / `films.pop(i)` for negative `i` address
position `len(films) + i` and raise `IndexError` (caught by the
`except`) when even that is negative. -/

/-- The position a Python index `i` addresses in a list of length `n`:
`none` when indexing raises `IndexError`. -/
def py_index (n : Nat) (i : Int) : Option Nat :=
  if 0 ≤ i then
    if i < (n : Int) then some i.toNat else none
  else
    if 0 ≤ (n : Int) + i then some ((n : Int) + i).toNat else none

/-- The user-visible outcome of the delete branch. -/
inductive DeleteOutcome where
  | notFound
  | indexError
  | deleted (title : String) (remaining : List Film)
deriving DecidableEq

/-- The `delete_{i}` branch of `list_delete_film`, after the payload
index has been parsed: the guard rejects `film_index >= len(films)`
with the "фильм не найден" message; otherwise the Python index is
resolved (an unresolvable negative index raises `IndexError`, caught by
the handler's `except`), the record is popped from the session
snapshot, and the whole per-user list is persisted over a fresh
`load_films()`.  Returns the store after the call, the outcome, and the
next conversation state. -/
def list_delete_film (store : Store) (user_id : String)
    (session_films : List Film) (film_index : Int) :
    Store × DeleteOutcome × Int :=
  if (session_films.length : Int) ≤ film_index then
    (store, .notFound, ConversationHandler.END)
  else
    match py_index session_films.length film_index with
    | none => (store, .indexError, ConversationHandler.END)
    | some k =>
      let film_to_delete := session_films.getD k ⟨0, "", []⟩
      let films := session_films.eraseIdx k
      let store := store_set store user_id films
      if films.isEmpty then
        (store, .deleted film_to_delete.title films, ConversationHandler.END)
      else
        (store, .deleted film_to_delete.title films, LIST_SHOW)

/-! ## Event router (`bot.py` lines 620-640) -/

/-- The session keys `universal_callback_handler` tests with `in
context.user_data`: whether each key is present. -/
structure RouterSession where
  recommend_films : Bool
  recommend_genre_id : Bool
  add_results : Bool
deriving DecidableEq

/-- Which handler the router dispatches to. -/
inductive Route where
  | deleteFlow
  | modeChoice
  | filmRec
  | genreRec
  | addPick
  | expired
deriving DecidableEq

/-- Python `str.startswith(pre)`: the first `len(pre)` characters equal
`pre`. -/
def py_startswith (s pre : String) : Bool := s.data.take pre.data.length == pre.data

/-- Python `str.isdigit` restricted to ASCII payloads: nonempty and all
digits (the payloads the bot emits are ASCII). -/
def py_isdigit (s : String) : Bool := !s.data.isEmpty && s.data.all Char.isDigit

/-- `universal_callback_handler` (`bot.py` lines 620-640), reduced to
its dispatch decision: the chain of `if`/`elif` tests on the payload
string and the session keys, in source order, with the final `else`
answering "Сессия устарела, начните заново." and returning `END`.  The
embedding is total: every payload takes exactly one branch. -/
def universal_callback_handler (data : String) (s : RouterSession) : Route :=
  if py_startswith data "delete_" || data == "show_delete_interface"
      || data == "cancel_delete" || data == "show_updated_list" then
    .deleteFlow
  else if data == "by_film" || data == "by_genre" then
    .modeChoice
  else if py_startswith data "film_page_" || data == "more_film"
      || data == "close_recommendations" || py_startswith data "add_rec_"
      || (py_isdigit data && s.recommend_films) then
    .filmRec
  else if py_startswith data "genre_page_" || data == "more_genre"
      || py_startswith data "add_rec_" || data == "close_recommendations"
      || (py_isdigit data && s.recommend_genre_id) then
    .genreRec
  else if py_isdigit data && s.add_results then
    .addPick
  else
    .expired

/-- The router-precedence class of delete-related payloads (first
`elif` arm of `universal_callback_handler`). -/
def delete_data (d : String) : Bool :=
  py_startswith d "delete_" || d == "show_delete_interface"
    || d == "cancel_delete" || d == "show_updated_list"

/-- Recommend-mode-choice payloads. -/
def mode_choice_data (d : String) : Bool :=
  d == "by_film" || d == "by_genre"

/-- Film-recommendation payloads: the dedicated prefixes and constants,
or a numeric pick gated on a pending `recommend_films` list. -/
def film_rec_data (d : String) (s : RouterSession) : Bool :=
  py_startswith d "film_page_" || d == "more_film"
    || d == "close_recommendations" || py_startswith d "add_rec_"
    || (py_isdigit d && s.recommend_films)

/-- Genre-recommendation payloads: prefixes and constants, or a numeric
pick gated on a pending `recommend_genre_id`. -/
def genre_rec_data (d : String) (s : RouterSession) : Bool :=
  py_startswith d "genre_page_" || d == "more_genre"
    || py_startswith d "add_rec_" || d == "close_recommendations"
    || (py_isdigit d && s.recommend_genre_id)

/-- Add-disambiguation numeric picks, gated on pending `add_results`. -/
def add_pick_data (d : String) (s : RouterSession) : Bool :=
  py_isdigit d && s.add_results

/-! ## Invariants -/

/-- No two records in one user's list share an `id`. -/
def user_films_nodup (fs : List Film) : Prop := (fs.map Film.id).Nodup

/-- Per-user id-uniqueness over the whole store. -/
def StoreInv (store : Store) : Prop := ∀ e ∈ store, user_films_nodup e.2

/-! ## Helper lemmas -/

theorem load_user_nodup (store : Store) (u : String) (hinv : StoreInv store) :
    user_films_nodup (load_user store u) := by
  unfold load_user
  cases hfind : store.find? (fun e => e.1 == u) with
  | none => simp [user_films_nodup]
  | some e =>
    simpa using hinv e (List.mem_of_find?_eq_some hfind)

theorem store_set_inv (store : Store) (u : String) (fs : List Film)
    (hinv : StoreInv store) (hfs : user_films_nodup fs) :
    StoreInv (store_set store u fs) := by
  intro e he
  unfold store_set at he
  split at he
  · obtain ⟨e0, he0, heq⟩ := List.mem_map.mp he
    by_cases hu : (e0.1 == u) = true
    · rw [if_pos hu] at heq
      rw [← heq]
      exact hfs
    · rw [if_neg hu] at heq
      rw [← heq]
      exact hinv e0 he0
  · rcases List.mem_append.mp he with h | h
    · exact hinv e h
    · rw [List.mem_singleton.mp h]
      exact hfs

theorem decodeAll_of_inverse {α β : Type} (f : α → Option β) (g : β → α)
    (h : ∀ b, f (g b) = some b) (l : List β) :
    decodeAll f (l.map g) = some l := by
  induction l with
  | nil => rfl
  | cons x xs ih =>
    simp only [List.map_cons, decodeAll, h x, ih]

theorem decodeFilm_encodeFilm (f : Film) : decodeFilm (encodeFilm f) = some f := by
  unfold decodeFilm encodeFilm Json.lookup
  simp [List.find?, decodeAll_of_inverse decodeString Json.str (fun b => rfl) f.genres]

theorem load_films_save_films (s : Store) :
    load_films (some (save_films s)) = some s := by
  show decodeAll (fun e => (decodeFilms e.2).map (fun fs => (e.1, fs)))
      (s.map (fun e => (e.1, Json.arr (e.2.map encodeFilm)))) = some s
  rw [decodeAll_of_inverse]
  intro e
  show (decodeAll decodeFilm (e.2.map encodeFilm)).map (fun fs => (e.1, fs)) = some e
  rw [decodeAll_of_inverse decodeFilm encodeFilm decodeFilm_encodeFilm e.2]
  rfl

theorem router_eq_cascade (d : String) (s : RouterSession) :
    universal_callback_handler d s =
      (if delete_data d then .deleteFlow
       else if mode_choice_data d then .modeChoice
       else if film_rec_data d s then .filmRec
       else if genre_rec_data d s then .genreRec
       else if add_pick_data d s then .addPick
       else .expired) := rfl

/-! ## Claim theorems -/

set_option maxHeartbeats 2000000 in
/-- Claim C1: the spec asserts that for every sequence of
`RateLimiter.acquire()` calls — including interleaved concurrent callers
sharing the one process-wide limiter — no sliding window of
`time_window` seconds ever contains more than `max_requests` recorded
acquisition timestamps.  The code violates this: `acquire` never
re-checks the window after its `asyncio.sleep`, so two callers that both
found the window full sleep through the same slot and both append.  This
theorem evaluates the failing interleaving at the configured
`max_requests = 8`, `time_window = 1.0`: eight completed acquisitions
(one at t=0.5, seven at t=0.96) and two concurrent acquisitions entered
at t=0.97 and t=0.98 leave ten recorded timestamps, of which 9 lie in
the sliding 1-second window ending at t=1.5 — more than
`max_requests = 8`. -/
theorem rate_limiter_concurrent_overadmission :
    interleavedTrace.requests =
      [1/2, 24/25, 24/25, 24/25, 24/25, 24/25, 24/25, 24/25, 3/2, 3/2] ∧
    windowCount tmdb_rate_limiter.time_window (3/2) interleavedTrace.requests = 9 ∧
    tmdb_rate_limiter.max_requests <
      windowCount tmdb_rate_limiter.time_window (3/2) interleavedTrace.requests := by
  refine ⟨?_, ?_, ?_⟩ <;>
    · simp [interleavedTrace, tmdb_rate_limiter, RateLimiter.acquire,
        RateLimiter.acquireEntry, RateLimiter.acquireAppend, RateLimiter.prune,
        windowCount]
      norm_num

/-- Claim C2: in the by-film recommendation flow, for every UI page
`p ≥ 1` the upstream page requested equals `ceil(p/4)`, the slice offset
equals `((p-1) mod 4) * 5`, the rendered page is the 5-item slice at
that offset (stated for an empty saved list, where the preferential
filter is the identity and the slice comes from the raw upstream result
set), and page 1 over a 20-item upstream result set yields items 0-4
with no "no more" outcome. -/
theorem film_pagination_mapping (p : Nat) (hp : 1 ≤ p) :
    tmdb_page p = ceil_div p 4 ∧
    tmdb_results_offset p = ((p - 1) % 4) * 5 ∧
    (∀ results : List Candidate,
      page_films results [] p = (results.drop (tmdb_results_offset p)).take 5) ∧
    (∀ results : List Candidate, results.length = 20 →
      page_films results [] 1 = results.take 5 ∧ page_films results [] 1 ≠ []) := by
  have hslice : ∀ (results : List Candidate) (q : Nat),
      page_films results [] q = (results.drop (tmdb_results_offset q)).take 5 := by
    intro results q
    unfold page_films
    simp [items_per_page]
  refine ⟨?_, rfl, fun results => hslice results p, ?_⟩
  · unfold tmdb_page ceil_div
    omega
  · intro results hlen
    rw [hslice results 1]
    have hoff : tmdb_results_offset 1 = 0 := rfl
    rw [hoff, List.drop_zero]
    refine ⟨rfl, ?_⟩
    intro hempty
    have := congrArg List.length hempty
    simp [List.length_take, hlen] at this

/-- Witness for C2 at `p = 6`. -/
theorem film_pagination_mapping_witness :
    tmdb_page 6 = ceil_div 6 4 ∧ tmdb_results_offset 6 = ((6 - 1) % 4) * 5 ∧
    page_films [⟨3, "a", []⟩] [] 6 =
      (([⟨3, "a", []⟩] : List Candidate).drop (tmdb_results_offset 6)).take 5 := by
  obtain ⟨h1, h2, h3, h4⟩ := film_pagination_mapping 6 (by decide)
  exact ⟨h1, h2, h3 _⟩

/-- Claim C3: for every user and candidate film whose external id
already occurs in that user's saved list, `add_save_film` leaves the
store unchanged (the duplicate branch returns before `save_films` is
reached), produces the "Этот фильм уже есть" outcome, and ends the
conversation. -/
theorem add_duplicate_is_noop (store : Store) (u : String) (film : Candidate)
    (genres : GenreMap) (hdup : ∃ f ∈ load_user store u, f.id = film.id) :
    add_save_film store u film genres =
      (store, AddOutcome.alreadyHave, ConversationHandler.END) := by
  obtain ⟨f, hf, hid⟩ := hdup
  unfold add_save_film
  rw [if_pos (List.any_eq_true.mpr ⟨f, hf, by simp [hid]⟩)]

/-- Witness for C3: a one-user store already holding the candidate. -/
theorem add_duplicate_is_noop_witness :
    add_save_film [("7", [⟨1, "t", []⟩])] "7" ⟨1, "t", []⟩ [] =
      ([("7", [⟨1, "t", []⟩])], AddOutcome.alreadyHave, ConversationHandler.END) :=
  add_duplicate_is_noop _ _ _ _ ⟨⟨1, "t", []⟩, by simp [load_user], rfl⟩

/-- Claim C4: for every session list and natural delete index `i`: if
`i < length`, the handler removes exactly the record at position `i`
(the persisted list is `take i ++ drop (i+1)`, preserving the relative
order of all remaining records) and persists it; if `i ≥ length`, it
reports "фильм не найден" and ends without touching the store. -/
theorem delete_at_index_contract (store : Store) (u : String)
    (films : List Film) (i : Nat) :
    (i < films.length →
      list_delete_film store u films (i : Int) =
        (store_set store u (films.take i ++ films.drop (i + 1)),
          .deleted (films.getD i ⟨0, "", []⟩).title (films.take i ++ films.drop (i + 1)),
          if (films.take i ++ films.drop (i + 1)).isEmpty then ConversationHandler.END
          else LIST_SHOW)) ∧
    (films.length ≤ i →
      list_delete_film store u films (i : Int) =
        (store, .notFound, ConversationHandler.END)) := by
  constructor
  · intro h
    unfold list_delete_film
    rw [if_neg (by exact_mod_cast by omega)]
    have hpy : py_index films.length (i : Int) = some i := by
      unfold py_index
      rw [if_pos (by positivity), if_pos (by exact_mod_cast h)]
      simp
    rw [hpy]
    simp only [List.eraseIdx_eq_take_drop_succ]
    split <;> rfl
  · intro h
    unfold list_delete_film
    rw [if_pos (by exact_mod_cast h)]

/-- Witness for C4: deleting index 0 from a two-film list. -/
theorem delete_at_index_contract_witness :
    list_delete_film [("7", [⟨1, "a", []⟩, ⟨2, "b", []⟩])] "7"
        [⟨1, "a", []⟩, ⟨2, "b", []⟩] (0 : Nat) =
      ([("7", [⟨2, "b", []⟩])], .deleted "a" [⟨2, "b", []⟩], LIST_SHOW) := by
  have h := (delete_at_index_contract [("7", [⟨1, "a", []⟩, ⟨2, "b", []⟩])] "7"
    [⟨1, "a", []⟩, ⟨2, "b", []⟩] 0).1 (by decide)
  rw [h]
  rfl

/-- Claim C5: per-user id-uniqueness is an invariant: if no user's list
holds two records with the same id, then the store after `add_save_film`
(whose duplicate check guards the append) still satisfies it, and so
does the store after the delete branch of `list_delete_film` run on any
id-unique session snapshot (listing never writes). -/
theorem operations_preserve_id_uniqueness (store : Store) (u : String)
    (film : Candidate) (genres : GenreMap) (sess : List Film) (i : Int)
    (hinv : StoreInv store) :
    StoreInv (add_save_film store u film genres).1 ∧
    (user_films_nodup sess → StoreInv (list_delete_film store u sess i).1) := by
  constructor
  · unfold add_save_film
    dsimp only
    split
    · exact hinv
    · next hany =>
      apply store_set_inv store u _ hinv
      unfold user_films_nodup
      rw [List.map_append]
      rw [List.nodup_append]
      refine ⟨load_user_nodup store u hinv, by simp, ?_⟩
      intro x hx
      simp only [List.map_cons, List.map_nil, List.mem_singleton]
      intro hxid
      obtain ⟨f, hf, hfid⟩ := List.mem_map.mp hx
      have hfalse : ((load_user store u).any fun f => f.id == film.id) = false :=
        Bool.eq_false_iff.mpr hany
      have := List.any_eq_false.mp hfalse f hf
      simp at this
      rw [hxid] at hfid
      exact this (by rw [hfid])
  · intro hsess
    unfold list_delete_film
    split
    · exact hinv
    · cases hpy : py_index sess.length i with
      | none => simpa [hpy] using hinv
      | some k =>
        simp only [hpy]
        have : user_films_nodup (sess.eraseIdx k) := by
          unfold user_films_nodup
          exact ((List.eraseIdx_sublist sess k).map Film.id).nodup hsess
        split <;> exact store_set_inv store u _ hinv this

/-- Witness for C5: adding to the empty store. -/
theorem operations_preserve_id_uniqueness_witness :
    StoreInv ((add_save_film [] "7" ⟨1, "t", []⟩ []).1) := by
  have h := (operations_preserve_id_uniqueness [] "7" ⟨1, "t", []⟩ [] [] 0
    (by intro e he; cases he)).1
  exact h

/-- Claim C6: performing `save(load())` leaves the store contents
unchanged — whatever user-id-to-film-list mapping `load_films` read
before the round trip, it reads the same mapping afterwards (and an
absent file reads as the empty mapping both times). -/
theorem save_load_round_trip (file : Option Json) (s : Store)
    (h : load_films file = some s) :
    load_films (some (save_films s)) = load_films file := by
  rw [h, load_films_save_films]

/-- Witness for C6 on a concrete one-user file. -/
theorem save_load_round_trip_witness :
    load_films (some (save_films [("7", [⟨1, "t", ["g"]⟩])])) =
      load_films (some (Json.obj [("7", Json.arr [encodeFilm ⟨1, "t", ["g"]⟩])])) :=
  save_load_round_trip (some (Json.obj [("7", Json.arr [encodeFilm ⟨1, "t", ["g"]⟩])]))
    [("7", [⟨1, "t", ["g"]⟩])] (by rfl)

/-- Claim C7: `get_genres` returns the cached taxonomy whenever the
cache is populated (performing no fetch); on a cache miss it performs
one fetch and, on a 200 response, stores the fetched mapping in the
cache and returns it; on a non-200 status or an exception it returns
the empty mapping and leaves the cache as it was (empty), propagating
nothing. -/
theorem get_genres_cache_contract (cache : Option GenreMap) (fetch : GenreFetch) :
    (genre_cache_truthy cache = true →
      get_genres cache fetch = (cache.getD [], cache, false)) ∧
    (genre_cache_truthy cache = false →
      (∀ gs, get_genres cache (.ok gs) = (gs, some gs, true)) ∧
      (∀ code, get_genres cache (.httpStatus code) = ([], cache, true)) ∧
      get_genres cache .exn = ([], cache, true)) := by
  constructor
  · intro h
    unfold get_genres
    rw [if_pos h]
  · intro h
    refine ⟨fun gs => ?_, fun code => ?_, ?_⟩ <;>
      · unfold get_genres
        rw [if_neg (by simp [h])]

/-- Witness for C7: a populated cache answers without fetching. -/
theorem get_genres_cache_contract_witness :
    get_genres (some [(28, "Action")]) .exn =
      ([(28, "Action")], some [(28, "Action")], false) :=
  (get_genres_cache_contract (some [(28, "Action")]) .exn).1 (by decide)

/-- Claim C8: in the `AwaitingTitle` state, a search yielding zero
results re-prompts and stays in `ADD_TITLE`; exactly one result proceeds
directly to the save step (`add_save_film` on that result); two or more
results present a pick-list of at most 5 candidates, stash the full
result list in the session, and move to `ADD_CHOICE`. -/
theorem add_title_branching (store : Store) (u : String) (genres : GenreMap)
    (session : AddSession) (results : List Candidate) :
    (results = [] →
      add_title store u genres session (.ok results) =
        (store, .notFoundRetry, session, ADD_TITLE)) ∧
    (results.length = 1 →
      add_title store u genres session (.ok results) =
        ((add_save_film store u results.headI genres).1,
          .saved (add_save_film store u results.headI genres).2.1, session,
          (add_save_film store u results.headI genres).2.2)) ∧
    (2 ≤ results.length →
      add_title store u genres session (.ok results) =
        (store, .pickList (results.take 5), ⟨some results⟩, ADD_CHOICE) ∧
      (results.take 5).length ≤ 5) := by
  refine ⟨?_, ?_, ?_⟩
  · rintro rfl
    rfl
  · intro h1
    show (if results.isEmpty = true then (store, AddTitleOutcome.notFoundRetry, session, ADD_TITLE)
      else if results.length = 1 then
        let r := add_save_film store u results.headI genres
        (r.1, AddTitleOutcome.saved r.2.1, session, r.2.2)
      else (store, AddTitleOutcome.pickList (results.take 5), ⟨some results⟩, ADD_CHOICE)) = _
    rw [if_neg (by simp [List.isEmpty_iff, ← List.length_eq_zero]; omega), if_pos h1]
  · intro h2
    constructor
    · show (if results.isEmpty = true then (store, AddTitleOutcome.notFoundRetry, session, ADD_TITLE)
        else if results.length = 1 then
          let r := add_save_film store u results.headI genres
          (r.1, AddTitleOutcome.saved r.2.1, session, r.2.2)
        else (store, AddTitleOutcome.pickList (results.take 5), ⟨some results⟩, ADD_CHOICE)) = _
      rw [if_neg (by simp [List.isEmpty_iff, ← List.length_eq_zero]; omega),
          if_neg (by omega)]
    · simp [List.length_take]

/-- Witness for C8: two search results yield a two-item pick-list and
the `ADD_CHOICE` state. -/
theorem add_title_branching_witness :
    add_title [] "7" [] ⟨none⟩ (.ok [⟨1, "a", []⟩, ⟨2, "b", []⟩]) =
      ([], .pickList [⟨1, "a", []⟩, ⟨2, "b", []⟩],
        ⟨some [⟨1, "a", []⟩, ⟨2, "b", []⟩]⟩, ADD_CHOICE) :=
  ((add_title_branching [] "7" [] ⟨none⟩ [⟨1, "a", []⟩, ⟨2, "b", []⟩]).2.2 (by decide)).1

/-- Claim C9: the router matches button payloads in the fixed precedence
order delete-related, recommend-mode-choice, film-recommendation (prefix
or numeric gated on a pending film list), genre-recommendation (gated on
pending genre context), add-disambiguation numeric pick (gated on
pending search results); a payload matching none of these — and exactly
such payloads — is answered with the "Сессия устарела" route, which ends
the conversation without raising (the embedded dispatch is total). -/
theorem router_precedence_and_expiry (d : String) (s : RouterSession) :
    (delete_data d = true → universal_callback_handler d s = .deleteFlow) ∧
    (delete_data d = false → mode_choice_data d = true →
      universal_callback_handler d s = .modeChoice) ∧
    (delete_data d = false → mode_choice_data d = false → film_rec_data d s = true →
      universal_callback_handler d s = .filmRec) ∧
    (delete_data d = false → mode_choice_data d = false → film_rec_data d s = false →
      genre_rec_data d s = true → universal_callback_handler d s = .genreRec) ∧
    (delete_data d = false → mode_choice_data d = false → film_rec_data d s = false →
      genre_rec_data d s = false → add_pick_data d s = true →
      universal_callback_handler d s = .addPick) ∧
    (universal_callback_handler d s = .expired ↔
      delete_data d = false ∧ mode_choice_data d = false ∧ film_rec_data d s = false ∧
      genre_rec_data d s = false ∧ add_pick_data d s = false) := by
  rw [router_eq_cascade]
  generalize delete_data d = b1
  generalize mode_choice_data d = b2
  generalize film_rec_data d s = b3
  generalize genre_rec_data d s = b4
  generalize add_pick_data d s = b5
  cases b1 <;> cases b2 <;> cases b3 <;> cases b4 <;> cases b5 <;> simp

/-- Witness for C9: a stale payload with no session context routes to
the session-expired reply. -/
theorem router_precedence_witness :
    universal_callback_handler "stale" ⟨false, false, false⟩ = .expired :=
  (router_precedence_and_expiry "stale" ⟨false, false, false⟩).2.2.2.2.2.mpr
    (by refine ⟨?_, ?_, ?_, ?_, ?_⟩ <;> decide)

/-- Claim C10: a delete payload carrying a negative index `k` with
`-length ≤ k ≤ -1` on a non-empty session list slips past the
out-of-range guard (which only rejects `k ≥ length`): the record at
position `length + k` — the last one when `k = -1` — is removed and the
shortened list persisted, instead of the tap being reported as an
invalid selection. -/
theorem delete_negative_index_deletes_from_end (store : Store) (u : String)
    (films : List Film) (k : Int)
    (h1 : -(films.length : Int) ≤ k) (h2 : k ≤ -1) :
    list_delete_film store u films k ≠ (store, .notFound, ConversationHandler.END) ∧
    list_delete_film store u films k =
      (store_set store u (films.eraseIdx ((films.length : Int) + k).toNat),
        .deleted (films.getD ((films.length : Int) + k).toNat ⟨0, "", []⟩).title
          (films.eraseIdx ((films.length : Int) + k).toNat),
        if (films.eraseIdx ((films.length : Int) + k).toNat).isEmpty then
          ConversationHandler.END
        else LIST_SHOW) := by
  have hmain : list_delete_film store u films k =
      (store_set store u (films.eraseIdx ((films.length : Int) + k).toNat),
        .deleted (films.getD ((films.length : Int) + k).toNat ⟨0, "", []⟩).title
          (films.eraseIdx ((films.length : Int) + k).toNat),
        if (films.eraseIdx ((films.length : Int) + k).toNat).isEmpty then
          ConversationHandler.END
        else LIST_SHOW) := by
    unfold list_delete_film
    rw [if_neg (by omega)]
    have hpy : py_index films.length k = some ((films.length : Int) + k).toNat := by
      unfold py_index
      rw [if_neg (by omega), if_pos (by omega)]
    simp only [hpy]
    split <;> rfl
  refine ⟨?_, hmain⟩
  rw [hmain]
  intro hcontra
  have hout := congrArg (fun r => r.2.1) hcontra
  revert hout
  split <;> simp

/-- Witness for C10: `delete_-1` on a two-film list removes the second
film. -/
theorem delete_negative_index_witness :
    list_delete_film [("7", [⟨1, "a", []⟩, ⟨2, "b", []⟩])] "7"
        [⟨1, "a", []⟩, ⟨2, "b", []⟩] (-1) =
      ([("7", [⟨1, "a", []⟩])], .deleted "b" [⟨1, "a", []⟩], LIST_SHOW) := by
  have h := (delete_negative_index_deletes_from_end
    [("7", [⟨1, "a", []⟩, ⟨2, "b", []⟩])] "7"
    [⟨1, "a", []⟩, ⟨2, "b", []⟩] (-1) (by decide) (by decide)).2
  rw [h]
  rfl
